import Mathlib

/-!
Verification development for the eco-route repository: a shallow embedding of
`cache_manager.py` and `routing.py` (data model, per-edge fuel-cost model and
the dual shortest-path router), with theorems settling the frozen claims.

Conventions: Python floats are embedded as `ℝ`; Python dict `.get(k, d)`
accesses become `Option.getD`; membership tests `'k' in d` become `Option`
pattern matches; functions that may raise return `Except`; the wall-clock hour
read by `datetime.now().hour` is passed as an explicit `hour : ℕ` argument.
-/

namespace EcoMap

/-! ## CacheManager (`cache_manager.py`)

A cache file is `{data_type}_{cache_key}.json` where `cache_key` is the
fixed-length hex SHA-1 digest of `json.dumps(data, sort_keys=True)`.  Because
the digest has fixed length, the file name is in bijection with the pair
`(data_type, cache_key)`, so the on-disk cache directory is modelled as a map
from that pair.  Params are modelled by their canonical serialization (a
`String`), and the digest is modelled as an injective function of it (the
standard collision-free model of SHA-1). -/

/-- Outcome of opening and JSON-parsing one cache file: the file is absent,
or present but unreadable / corrupt (any `open`/`json.load` exception), or
holds a stored payload. -/
inductive FileState (α : Type) where
  | absent : FileState α
  | corrupt : FileState α
  | stored : α → FileState α
deriving DecidableEq

/-- The cache directory: what opening the file named by
`(data_type, cache_key)` yields.  Payloads have type `α`. -/
def CacheState (α : Type) : Type := String → String → FileState α

/-- `_get_cache_key(data)`: SHA-1 hex digest of the canonical serialization of
`data`.  Params are modelled by their canonical serialization itself and the
digest is modelled as the identity (injective, as a collision-free hash). -/
def cacheKey (params : String) : String := params

/-- `get_cached_data(data_type, data)`: if the cache file exists, try to parse
it and return the payload; any read/parse failure is caught and falls through
to `None`; an absent file returns `None`.  Total: never raises. -/
def getCachedData {α : Type} (fs : CacheState α) (dataType params : String) :
    Option α :=
  match fs dataType (cacheKey params) with
  | .stored v => some v
  | .corrupt => none
  | .absent => none

/-- `save_to_cache(data_type, data, result)`: write the payload to the cache
file; `writeOk` is whether the `open`/`json.dump` succeeds.  A failed write is
caught and logged, leaving the cache directory unchanged (no-op). -/
def saveToCache {α : Type} (fs : CacheState α) (dataType params : String)
    (v : α) (writeOk : Bool) : CacheState α :=
  if writeOk then
    fun d k => if d = dataType ∧ k = cacheKey params then .stored v else fs d k
  else fs

/-- The cache directory before anything is stored: every file is absent. -/
def emptyCache (α : Type) : CacheState α := fun _ _ => .absent

/-- A sequence of successful `save_to_cache` calls, applied in order. -/
def applySaves {α : Type} (fs : CacheState α)
    (saves : List (String × String × α)) : CacheState α :=
  saves.foldl (fun s e => saveToCache s e.1 e.2.1 e.2.2 true) fs

/-- C7: for every dataset name and params, `get_cached_data` and
`save_to_cache` never raise to the caller: a read of an absent or corrupt
cache file returns `None` (the absent value), and a failed write completes as
a no-op, leaving the cache state unchanged. -/
theorem c7_cache_failures_degrade {α : Type} (fs : CacheState α)
    (dataType params : String) (v : α)
    (hbad : fs dataType (cacheKey params) = .absent ∨
            fs dataType (cacheKey params) = .corrupt) :
    getCachedData fs dataType params = none ∧
    saveToCache fs dataType params v false = fs := by
  constructor
  · unfold getCachedData
    rcases hbad with h | h <;> rw [h]
  · rfl

/-- Witness for C7 at a concrete corrupt cache state. -/
theorem c7_cache_failures_degrade_witness :
    ((emptyCache ℤ) "elevations" (cacheKey "p") = .absent ∨
     (emptyCache ℤ) "elevations" (cacheKey "p") = .corrupt) ∧
    (getCachedData (emptyCache ℤ) "elevations" "p" = none ∧
     saveToCache (emptyCache ℤ) "elevations" "p" 5 false = emptyCache ℤ) :=
  ⟨Or.inl rfl,
   c7_cache_failures_degrade (emptyCache ℤ) "elevations" "p" 5 (Or.inl rfl)⟩

/-- C8: cache round trip.  A successful `save_to_cache(dataset, params, v)`
followed by `get_cached_data(dataset, params)` returns `some v`; and starting
from an empty cache, after any sequence of saves none of which used this
dataset-and-params pair, `get_cached_data` returns `None`. -/
theorem c8_cache_round_trip {α : Type} (fs : CacheState α)
    (dataType params : String) (v : α)
    (saves : List (String × String × α)) (dt p : String)
    (hfresh : ∀ e ∈ saves, ¬(e.1 = dt ∧ e.2.1 = p)) :
    getCachedData (saveToCache fs dataType params v true) dataType params
      = some v ∧
    getCachedData (applySaves (emptyCache α) saves) dt p = none := by
  constructor
  · simp [getCachedData, saveToCache]
  · have key : ∀ (s : CacheState α), getCachedData s dt p = none →
        getCachedData (applySaves s saves) dt p = none := by
      induction saves with
      | nil => intro s hs; exact hs
      | cons e rest ih =>
        intro s hs
        have hne : ¬(e.1 = dt ∧ e.2.1 = p) := hfresh e (List.mem_cons_self e rest)
        have hstep : getCachedData (saveToCache s e.1 e.2.1 e.2.2 true) dt p
            = none := by
          have hcond : ¬(dt = e.1 ∧ p = e.2.1) := by
            intro ⟨h1, h2⟩; exact hne ⟨h1.symm, h2.symm⟩
          simp only [getCachedData, saveToCache, cacheKey, eq_self_iff_true,
            if_true] at hs ⊢
          rw [if_neg hcond]
          exact hs
        have := ih (fun x hx => hfresh x (List.mem_cons_of_mem e hx))
        exact this (saveToCache s e.1 e.2.1 e.2.2 true) hstep
    exact key (emptyCache α) rfl

/-- Witness for C8: store one elevations entry, read it back, and look up a
different params string never stored. -/
theorem c8_cache_round_trip_witness :
    (∀ e ∈ [("elevations", "pA", (5 : ℤ))], ¬(e.1 = "elevations" ∧ e.2.1 = "pB")) ∧
    (getCachedData (saveToCache (emptyCache ℤ) "elevations" "pA" 5 true)
        "elevations" "pA" = some 5 ∧
     getCachedData (applySaves (emptyCache ℤ) [("elevations", "pA", (5 : ℤ))])
        "elevations" "pB" = none) :=
  ⟨by decide,
   c8_cache_round_trip (emptyCache ℤ) "elevations" "pA" 5
     [("elevations", "pA", (5 : ℤ))] "elevations" "pB" (by decide)⟩

/-! ## Data model (`routing.py`)

Edge attribute dicts and vehicle parameter dicts.  A key read with
`d.get(k, default)` becomes an `Option` field read with `Option.getD` at each
call site (defaults differ per call site, as in the source); a key read with
`d.get(k)` or tested with `'k' in d` becomes an `Option` pattern match. -/

/-- An edge attribute dict.  `shortest_weight` and `eco_weight` are the keys
written by `find_shortest_and_eco_route`; `extra` stands for any further
attributes (e.g. `osmid`, `name`, geometry) that the routing code never
touches. -/
structure EdgeData where
  length : Option ℝ := none
  speed_kph : Option ℝ := none
  slope : Option ℝ := none
  highway : Option String := none
  shortest_weight : Option ℝ := none
  eco_weight : Option ℝ := none
  extra : List (String × String) := []

/-- A vehicle parameter dict, as consumed by the cost model.  Fields the code
reads with an explicit default carry that default; fields the code reads with
`.get(k)` (default `None`) or probes with `'k' in params` are `Option`. -/
structure VehicleParams where
  weight : ℝ := 1500
  drag_coefficient : ℝ := 0.3
  frontal_area : ℝ := 2.2
  optimal_speed : ℝ := 80
  max_efficiency : ℝ := 0.35
  engine_type : Option String := none
  fuel_type : Option String := none
  weather_conditions : String := "dry"
  temperature : Option ℝ := none
  wind_speed : Option ℝ := none
  wind_direction : Option ℝ := none

/-! ## Force and speed models (`routing.py`) -/

/-- `calculate_air_resistance(speed, vehicle_params)`:
`0.5 * 1.225 * speed**2 * drag_coefficient * frontal_area`. -/
noncomputable def calculate_air_resistance (speed : ℝ) (p : VehicleParams) : ℝ :=
  0.5 * 1.225 * speed ^ 2 * p.drag_coefficient * p.frontal_area

/-- The rolling-resistance coefficient table of
`calculate_rolling_resistance`, with its `.get(road_type, 0.015)` default. -/
def rolling_coefficient (road_type : String) : ℝ :=
  if road_type = "highway" then 0.01
  else if road_type = "primary" then 0.015
  else if road_type = "secondary" then 0.02
  else if road_type = "residential" then 0.025
  else if road_type = "unpaved" then 0.04
  else 0.015

/-- `calculate_rolling_resistance(vehicle_params, road_type)`:
`coefficient * weight * 9.81`. -/
noncomputable def calculate_rolling_resistance (p : VehicleParams)
    (road_type : String) : ℝ :=
  rolling_coefficient road_type * p.weight * 9.81

/-- `calculate_wind_resistance(speed, wind_speed, wind_direction,
vehicle_params)`: drag at the relative speed
`speed + wind_speed * cos(radians(wind_direction))`. -/
noncomputable def calculate_wind_resistance (speed wind_speed wind_direction : ℝ)
    (p : VehicleParams) : ℝ :=
  0.5 * 1.225 * (speed + wind_speed * Real.cos (wind_direction * Real.pi / 180)) ^ 2
    * p.drag_coefficient * p.frontal_area

/-- The aerodynamic total used by `calculate_fuel_consumption` lines 364–373:
base drag, plus — when the profile carries both wind keys — the full
wind-relative drag term on top of it. -/
noncomputable def total_air_resistance (speed : ℝ) (p : VehicleParams) : ℝ :=
  match p.wind_speed, p.wind_direction with
  | some ws, some wd =>
      calculate_air_resistance speed p + calculate_wind_resistance speed ws wd p
  | _, _ => calculate_air_resistance speed p

/-- The free-flow speed table of `calculate_traffic_flow`, default 60. -/
def free_flow_speed (road_type : String) : ℝ :=
  if road_type = "highway" then 120
  else if road_type = "primary" then 80
  else if road_type = "secondary" then 60
  else if road_type = "residential" then 40
  else 60

/-- The jam-density table of `calculate_traffic_flow`, default 80. -/
def jam_density (road_type : String) : ℝ :=
  if road_type = "highway" then 150
  else if road_type = "primary" then 100
  else if road_type = "secondary" then 80
  else if road_type = "residential" then 60
  else 80

/-- The peak-hour test of `calculate_traffic_flow`: the loop over
`[(7, 9), (16, 19)]` checking `start <= hour <= end`. -/
def isPeakHour (hour : ℕ) : Bool :=
  decide ((7 ≤ hour ∧ hour ≤ 9) ∨ (16 ≤ hour ∧ hour ≤ 19))

/-- The time-based density factor: `0.8` in a peak window, else `0.3`. -/
def density_factor (hour : ℕ) : ℝ := if isPeakHour hour then 0.8 else 0.3

/-- `calculate_traffic_flow(speed_limit, road_type, hour)`: Greenshields model
`v = vf * (1 - k/kj)` with `k = kj * density_factor`, then
`speed = min(speed, speed_limit)`. -/
noncomputable def calculate_traffic_flow (speed_limit : ℝ) (road_type : String)
    (hour : ℕ) : ℝ :=
  min (free_flow_speed road_type *
        (1 - jam_density road_type * density_factor hour / jam_density road_type))
      speed_limit

/-- The weather `speed_reduction` table of `calculate_weather_impact`,
defaulting to the `dry` row (0). -/
def speed_reduction (weather : String) : ℝ :=
  if weather = "dry" then 0
  else if weather = "wet" then 0.10
  else if weather = "snow" then 0.30
  else if weather = "ice" then 0.40
  else 0

/-- The weather `friction_reduction` table of `calculate_weather_impact`,
defaulting to the `dry` row (0). -/
def friction_reduction (weather : String) : ℝ :=
  if weather = "dry" then 0
  else if weather = "wet" then 0.20
  else if weather = "snow" then 0.50
  else if weather = "ice" then 0.70
  else 0

/-- The road-type sensitivity table of `calculate_weather_impact`, default 1.0. -/
def road_sensitivity (road_type : String) : ℝ :=
  if road_type = "highway" then 0.8
  else if road_type = "primary" then 1.0
  else if road_type = "secondary" then 1.2
  else if road_type = "residential" then 1.3
  else 1.0

/-- `calculate_weather_impact(weather_conditions, road_type)`: the pair
`(speed_multiplier, friction_multiplier) = (1 - speed_reduction * road_factor,
1 - friction_reduction * road_factor)`. -/
noncomputable def calculate_weather_impact (weather road_type : String) : ℝ × ℝ :=
  (1 - speed_reduction weather * road_sensitivity road_type,
   1 - friction_reduction weather * road_sensitivity road_type)

/-- `calculate_vehicle_efficiency(speed, vehicle_params)`: EPA-style bell
curves.  Note the peak efficiencies (0.85 / 0.45 / 0.35) are hard-coded local
constants in the source, not read from the profile. -/
noncomputable def calculate_vehicle_efficiency (speed : ℝ)
    (p : VehicleParams) : ℝ :=
  if p.fuel_type = some "electric" then
    match p.temperature with
    | some t =>
        if t < 10 then 0.85 * Real.exp (-0.0003 * |speed - 50| ^ 2) * 0.85
        else if t > 30 then 0.85 * Real.exp (-0.0003 * |speed - 50| ^ 2) * 0.90
        else 0.85 * Real.exp (-0.0003 * |speed - 50| ^ 2)
    | none => 0.85 * Real.exp (-0.0003 * |speed - 50| ^ 2)
  else if p.fuel_type = some "hybrid" then
    if speed < 30 then 0.45 * Real.exp (-0.0004 * |speed - 60| ^ 2) * 1.15
    else 0.45 * Real.exp (-0.0004 * |speed - 60| ^ 2)
  else
    if p.engine_type = some "diesel" then
      0.35 * Real.exp (-0.0005 * |speed - 80| ^ 2) * 1.2
    else if p.engine_type = some "turbo" then
      0.35 * Real.exp (-0.0005 * |speed - 80| ^ 2) * 1.1
    else 0.35 * Real.exp (-0.0005 * |speed - 80| ^ 2)

/-- The fuel energy-density table of `calculate_fuel_consumption`
(Joules per liter / per kWh), with its `.get(fuel_type, 46.4e6)` default. -/
def fuel_energy_density (fuel_type : String) : ℝ :=
  if fuel_type = "petrol" then 46400000
  else if fuel_type = "diesel" then 45600000
  else if fuel_type = "electric" then 3600000000
  else if fuel_type = "hybrid" then 46400000
  else 46400000

/-- The gravitational force term of `calculate_fuel_consumption` lines
379–383: `weight * 9.81 * sin(radians(slope))` — the stored slope value is
passed through `math.radians`. -/
noncomputable def gravitational_force (p : VehicleParams) (slope : ℝ) : ℝ :=
  p.weight * 9.81 * Real.sin (slope * Real.pi / 180)

/-- The effective speed (km/h) of `calculate_fuel_consumption` lines 354–358:
Greenshields traffic flow from the posted limit, then the weather speed
multiplier. -/
noncomputable def fuel_effective_speed (edge : EdgeData) (p : VehicleParams)
    (hour : ℕ) : ℝ :=
  calculate_traffic_flow (edge.speed_kph.getD 50) (edge.highway.getD "primary")
      hour *
    (calculate_weather_impact p.weather_conditions (edge.highway.getD "primary")).1

/-- `calculate_fuel_consumption(edge_data, vehicle_params)`.  The hour the
source reads from `datetime.now().hour` is the explicit `hour` argument.
Forces at `effective_speed / 3.6` m/s; work over the edge length; divided by
engine efficiency (evaluated at the km/h effective speed) and by the fuel
energy density of `fuel_type` (default petrol). -/
noncomputable def calculate_fuel_consumption (edge : EdgeData)
    (p : VehicleParams) (hour : ℕ) : ℝ :=
  (total_air_resistance (fuel_effective_speed edge p hour / 3.6) p +
      calculate_rolling_resistance p (edge.highway.getD "primary") *
        (calculate_weather_impact p.weather_conditions
          (edge.highway.getD "primary")).2 +
      gravitational_force p (edge.slope.getD 0)) *
    edge.length.getD 0 /
    calculate_vehicle_efficiency (fuel_effective_speed edge p hour) p /
    fuel_energy_density (p.fuel_type.getD "petrol")

/-! ## Profiles used as concrete inputs -/

/-- A profile carrying only the base defaults of the cost model (every key
read with an explicit default takes it; no optional key present). -/
noncomputable def pDefault : VehicleParams := {}

/-- The base profile with the wind keys present and zero wind, exactly as
`get_vehicle_params` always emits (`wind_speed: 0, wind_direction: 0`). -/
noncomputable def pWind : VehicleParams :=
  { wind_speed := some 0, wind_direction := some 0 }

/-! ## Bounds on the table lookups -/

theorem free_flow_speed_pos (r : String) : 0 < free_flow_speed r := by
  unfold free_flow_speed; split_ifs <;> norm_num

theorem jam_density_pos (r : String) : 0 < jam_density r := by
  unfold jam_density; split_ifs <;> norm_num

theorem density_factor_bounds (h : ℕ) :
    0 ≤ density_factor h ∧ density_factor h ≤ 0.8 := by
  unfold density_factor; split_ifs <;> norm_num

theorem speed_reduction_bounds (w : String) :
    0 ≤ speed_reduction w ∧ speed_reduction w ≤ 0.4 := by
  unfold speed_reduction; split_ifs <;> norm_num

theorem road_sensitivity_bounds (r : String) :
    0 ≤ road_sensitivity r ∧ road_sensitivity r ≤ 1.3 := by
  unfold road_sensitivity; split_ifs <;> norm_num

theorem speed_multiplier_bounds (w r : String) :
    0 ≤ (calculate_weather_impact w r).1 ∧
      (calculate_weather_impact w r).1 ≤ 1 := by
  obtain ⟨hs0, hs1⟩ := speed_reduction_bounds w
  obtain ⟨hr0, hr1⟩ := road_sensitivity_bounds r
  unfold calculate_weather_impact
  constructor <;> [skip; skip] <;> simp only <;> nlinarith

/-- C9: for every speed and every profile with strictly positive
`max_efficiency` (as all profiles from `get_vehicle_params` are),
`calculate_vehicle_efficiency` is strictly positive — so the division
`work / efficiency` inside `calculate_fuel_consumption` never divides by
zero.  (In the source the positivity is even unconditional: the peak
efficiencies are hard-coded positive constants.) -/
theorem c9_vehicle_efficiency_pos (speed : ℝ) (p : VehicleParams)
    (_ : 0 < p.max_efficiency) : 0 < calculate_vehicle_efficiency speed p := by
  unfold calculate_vehicle_efficiency
  rcases h : p.temperature with _ | t <;> split_ifs <;> positivity

/-- Witness for C9 at the default profile and 50 km/h. -/
theorem c9_vehicle_efficiency_pos_witness :
    0 < pDefault.max_efficiency ∧
      0 < calculate_vehicle_efficiency 50 pDefault :=
  ⟨by simp only [pDefault]; norm_num,
   c9_vehicle_efficiency_pos 50 pDefault (by simp only [pDefault]; norm_num)⟩

/-- C5: for every non-negative posted limit, hour, weather condition and road
class, the effective speed used by `calculate_fuel_consumption` — the
Greenshields traffic-flow speed followed by the weather speed multiplier —
never exceeds the posted limit. -/
theorem c5_effective_speed_capped (speed_limit : ℝ) (road weather : String)
    (hour : ℕ) (hlim : 0 ≤ speed_limit) :
    calculate_traffic_flow speed_limit road hour *
        (calculate_weather_impact weather road).1 ≤ speed_limit := by
  have htf_le : calculate_traffic_flow speed_limit road hour ≤ speed_limit := by
    unfold calculate_traffic_flow; exact min_le_right _ _
  have htf_nonneg : 0 ≤ calculate_traffic_flow speed_limit road hour := by
    unfold calculate_traffic_flow
    refine le_min ?_ hlim
    have hkj := jam_density_pos road
    have hff := free_flow_speed_pos road
    obtain ⟨hdf0, hdf1⟩ := density_factor_bounds hour
    have hdiv : jam_density road * density_factor hour / jam_density road =
        density_factor hour := by
      field_simp
    rw [hdiv]
    nlinarith
  obtain ⟨hm0, hm1⟩ := speed_multiplier_bounds weather road
  have : calculate_traffic_flow speed_limit road hour *
      (calculate_weather_impact weather road).1 ≤
      calculate_traffic_flow speed_limit road hour :=
    mul_le_of_le_one_right htf_nonneg hm1
  linarith

/-- Witness for C5 at limit 50 km/h, primary road, noon, dry weather. -/
theorem c5_effective_speed_capped_witness :
    (0 : ℝ) ≤ 50 ∧
      calculate_traffic_flow 50 "primary" 12 *
          (calculate_weather_impact "dry" "primary").1 ≤ 50 :=
  ⟨by norm_num, c5_effective_speed_capped 50 "primary" "dry" 12 (by norm_num)⟩

/-- C4 fails on the code: with the wind keys present (as `get_vehicle_params`
always sets, with zero wind) the aerodynamic total of
`calculate_fuel_consumption` is base drag PLUS the full wind-relative drag —
at 10 m/s and zero wind it equals twice the plain drag, not the claimed
`½·1.225·(v + w·cos(dir))²·Cd·A` (which at zero wind is the plain drag). -/
theorem c4_total_air_resistance_doubled :
    total_air_resistance 10 pWind = 2 * calculate_air_resistance 10 pWind ∧
      total_air_resistance 10 pWind ≠
        0.5 * 1.225 * (10 + 0 * Real.cos (0 * Real.pi / 180)) ^ 2 * 0.3 * 2.2 := by
  have hval : total_air_resistance 10 pWind =
      0.5 * 1.225 * 10 ^ 2 * 0.3 * 2.2 + 0.5 * 1.225 * 10 ^ 2 * 0.3 * 2.2 := by
    simp only [total_air_resistance, pWind, calculate_air_resistance,
      calculate_wind_resistance, zero_mul, add_zero]
  constructor
  · rw [hval]
    simp only [calculate_air_resistance, pWind]
    ring
  · rw [hval]
    simp only [zero_mul, add_zero]
    norm_num

/-- C3 fails on the code: `calculate_slope` stores the dimensionless ratio
`(elev_v - elev_u) / length`, but `calculate_fuel_consumption` feeds it
through `math.radians` as if it were degrees, so the gravitational term is
`m·g·sin(π·slope/180)`, not the claimed `m·g·sin(atan(slope))`.  At slope
ratio 1 (45° climb) with the default 1500 kg the two differ (≈257 N versus
≈10405 N). -/
theorem c3_gravitational_force_wrong_units :
    gravitational_force pDefault 1 ≠
      pDefault.weight * 9.81 * Real.sin (Real.arctan 1) := by
  have hL : gravitational_force pDefault 1 =
      1500 * 9.81 * Real.sin (Real.pi / 180) := by
    simp only [gravitational_force, pDefault, one_mul]
  have hR : pDefault.weight * 9.81 * Real.sin (Real.arctan 1) =
      1500 * 9.81 * (Real.sqrt 2 / 2) := by
    rw [Real.arctan_one, Real.sin_pi_div_four]
    simp only [pDefault]
  rw [hL, hR]
  have h1 : Real.sin (Real.pi / 180) < 1 / 2 := by
    have hp : (0 : ℝ) < Real.pi / 180 := by positivity
    have hs := Real.sin_lt hp
    have hpi : Real.pi < 3.15 := Real.pi_lt_d2
    linarith
  have h2 : (1 : ℝ) / 2 ≤ Real.sqrt 2 / 2 := by
    have hsq : (1 : ℝ) ≤ Real.sqrt 2 := by
      have h4 : Real.sqrt 1 ≤ Real.sqrt 2 := Real.sqrt_le_sqrt (by norm_num)
      rwa [Real.sqrt_one] at h4
    linarith
  have hlt : 1500 * 9.81 * Real.sin (Real.pi / 180) <
      1500 * 9.81 * (Real.sqrt 2 / 2) := by nlinarith
  exact ne_of_lt hlt

/-! ## C2: the fuel estimate reads the wall clock -/

/-- A flat 100 m edge with every other attribute absent (posted limit
defaults to 50, road class to `primary`, slope to 0). -/
def eFlat : EdgeData := { length := some 100 }

theorem effective_speed_flat_peak : fuel_effective_speed eFlat pDefault 8 = 16 := by
  simp [fuel_effective_speed, eFlat, pDefault, calculate_traffic_flow,
    free_flow_speed, jam_density, density_factor, isPeakHour,
    calculate_weather_impact, speed_reduction, road_sensitivity]
  norm_num

theorem effective_speed_flat_noon : fuel_effective_speed eFlat pDefault 12 = 50 := by
  simp [fuel_effective_speed, eFlat, pDefault, calculate_traffic_flow,
    free_flow_speed, jam_density, density_factor, isPeakHour,
    calculate_weather_impact, speed_reduction, road_sensitivity]
  norm_num

theorem fuel_flat_peak : calculate_fuel_consumption eFlat pDefault 8 =
    (0.5 * 1.225 * (16 / 3.6) ^ 2 * 0.3 * 2.2 + 0.015 * 1500 * 9.81) * 100
      / (0.35 * Real.exp (-2.048)) / 46400000 := by
  unfold calculate_fuel_consumption
  rw [effective_speed_flat_peak]
  simp [total_air_resistance, pDefault, eFlat, calculate_air_resistance,
    calculate_rolling_resistance, rolling_coefficient, calculate_weather_impact,
    speed_reduction, friction_reduction, road_sensitivity, gravitational_force,
    calculate_vehicle_efficiency, fuel_energy_density, sq_abs]
  norm_num [sq_abs]

theorem fuel_flat_noon : calculate_fuel_consumption eFlat pDefault 12 =
    (0.5 * 1.225 * (50 / 3.6) ^ 2 * 0.3 * 2.2 + 0.015 * 1500 * 9.81) * 100
      / (0.35 * Real.exp (-0.45)) / 46400000 := by
  unfold calculate_fuel_consumption
  rw [effective_speed_flat_noon]
  simp [total_air_resistance, pDefault, eFlat, calculate_air_resistance,
    calculate_rolling_resistance, rolling_coefficient, calculate_weather_impact,
    speed_reduction, friction_reduction, road_sensitivity, gravitational_force,
    calculate_vehicle_efficiency, fuel_energy_density, sq_abs]
  norm_num [sq_abs]

/-- C2 fails as stated: `calculate_fuel_consumption` reads
`datetime.now().hour`, so two evaluations on identical (edge, profile) inputs
differ between a peak hour (08:00) and an off-peak hour (12:00). -/
theorem c2_fuel_depends_on_clock :
    calculate_fuel_consumption eFlat pDefault 8 ≠
      calculate_fuel_consumption eFlat pDefault 12 := by
  rw [fuel_flat_peak, fuel_flat_noon]
  intro heq
  have hE1 : (0 : ℝ) < Real.exp (-2.048) := Real.exp_pos _
  have hE2 : (0 : ℝ) < Real.exp (-0.45) := Real.exp_pos _
  have hsplit : Real.exp (-0.45) = Real.exp (-2.048) * Real.exp 1.598 := by
    rw [← Real.exp_add]; norm_num
  have hb : (2.598 : ℝ) ≤ Real.exp 1.598 := by
    have h := Real.add_one_le_exp (1.598 : ℝ); linarith
  rw [hsplit] at heq
  have hXE : 2.598 * Real.exp (-2.048) ≤ Real.exp 1.598 * Real.exp (-2.048) :=
    mul_le_mul_of_nonneg_right hb hE1.le
  field_simp at heq
  nlinarith [hE1, hXE]

/-- C2 amended: the fuel estimate is a pure function of
(edge, profile, hour-of-day), and it depends on the hour only through the
peak-hour flag — two evaluations on identical inputs at hours with the same
peak status yield an identical output. -/
theorem c2_fuel_pure_given_peak_status (e : EdgeData) (p : VehicleParams)
    (h1 h2 : ℕ) (hp : isPeakHour h1 = isPeakHour h2) :
    calculate_fuel_consumption e p h1 = calculate_fuel_consumption e p h2 := by
  unfold calculate_fuel_consumption fuel_effective_speed calculate_traffic_flow
    density_factor
  rw [hp]

/-- Witness for the amended C2 at the two peak hours 08:00 and 17:00. -/
theorem c2_fuel_pure_given_peak_status_witness :
    isPeakHour 8 = isPeakHour 17 ∧
      calculate_fuel_consumption eFlat pDefault 8 =
        calculate_fuel_consumption eFlat pDefault 17 :=
  ⟨by decide, c2_fuel_pure_given_peak_status eFlat pDefault 8 17 (by decide)⟩

/-! ## RoadGraph and the dual router (`routing.py` lines 410–451)

The street-network graph: nodes carry an identifier and their elevation
attribute; edges carry an attribute dict.  The shortest-path primitive the
router delegates to is `nx.shortest_path(G, source, target, weight=...)`; in
the networkx this repository runs (≥ 2.5, required by its osmnx dependency)
the weighted single-pair case dispatches to `bidirectional_dijkstra`,
embedded below exactly as the library runs it: a source-and-target membership
check, the `source == target` early return of `(0, [source])`, two
(distance, insertion-counter) min-heaps expanded in strict alternation —
forward over successors, backward over predecessors — finalized `dists` and
tentative `seen` maps per side, a best-meeting-path record updated at each
push where a node is seen from both sides, a return of that record as soon as
some node is finalized in both directions, and the `"Contradictory paths
found: negative weights?"` ValueError when a relaxation improves a node
already finalized on its side. -/

structure Graph where
  nodes : List (ℕ × ℝ)
  edges : List (ℕ × ℕ × EdgeData)

/-- The weight-assignment loop at the top of `find_shortest_and_eco_route`
(lines 413–418): every edge dict gets `shortest_weight = length (default 0)`
and `eco_weight = calculate_fuel_consumption(data, vehicle_params)`; nothing
else in the graph is touched. -/
noncomputable def setEdgeWeights (G : Graph) (p : VehicleParams) (hour : ℕ) :
    Graph :=
  { nodes := G.nodes,
    edges := G.edges.map fun e =>
      (e.1, e.2.1,
        { e.2.2 with
          shortest_weight := some (e.2.2.length.getD 0),
          eco_weight := some (calculate_fuel_consumption e.2.2 p hour) }) }

/-- The outcomes of the library search as used by the router: a missing
source or target node, the negative-weight ValueError, no path, or heap-loop
fuel exhaustion (an artifact of the embedding; a large enough bound is always
passed). -/
inductive RouterErr where
  | nodeNotFound : RouterErr
  | contradictoryPaths : RouterErr
  | noPath : RouterErr
  | fuelExhausted : RouterErr
deriving DecidableEq

/-- `heappop`: remove the entry minimal in the lexicographic order on
`(distance, counter)`; counters are unique, so this matches the heap. -/
def popMin {α : Type} [LinearOrder α] :
    List (α × ℕ × ℕ) → Option ((α × ℕ × ℕ) × List (α × ℕ × ℕ))
  | [] => none
  | x :: xs =>
    match popMin xs with
    | none => some (x, [])
    | some (m, rest) =>
      if x.1 < m.1 ∨ (x.1 = m.1 ∧ x.2.1 ≤ m.2.1) then some (x, xs)
      else some (m, x :: rest)

/-- One direction's search state in `bidirectional_dijkstra`: the finalized
distances `dists[dir]`, the tentative distances `seen[dir]`, the heap entries
`(distance, counter, node)` of `fringe[dir]`, and the reconstructed
`paths[dir]`. -/
structure SideState (α : Type) where
  dist : List (ℕ × α)
  seen : List (ℕ × α)
  fringe : List (α × ℕ × ℕ)
  paths : List (ℕ × List ℕ)

/-- The full state of `bidirectional_dijkstra`: the forward (index 0) and
backward (index 1) sides, the shared push counter, and the best meeting path
found so far.  `finalpath = []` is the not-yet-found sentinel exactly as in
the library; `finaldist` is only ever read once `finalpath` is nonempty. -/
structure BidiState (α : Type) where
  fwd : SideState α
  bwd : SideState α
  counter : ℕ
  finaldist : α
  finalpath : List ℕ

/-- Direction indexing `dists[dir]` etc.: `false` is forward, `true` is the
backward side. -/
def side {α : Type} (st : BidiState α) (dir : Bool) : SideState α :=
  if dir then st.bwd else st.fwd

/-- Write back one direction's side state. -/
def setSide {α : Type} (st : BidiState α) (dir : Bool) (s : SideState α) :
    BidiState α :=
  if dir then { st with bwd := s } else { st with fwd := s }

/-- The relaxation push of `bidirectional_dijkstra`: record the tentative
distance `seen[dir][w]`, push the heap entry, extend `paths[dir][w]`, then —
if `w` is now seen from both directions — compare the meeting distance
`seen[0][w] + seen[1][w]` with the best known and, when better (or none was
known), set `finaldist` and `finalpath = paths[0][w] + reversed(paths[1][w])[1:]`. -/
def bdPush {α : Type} [LinearOrder α] [Add α] (st : BidiState α) (dir : Bool)
    (v w : ℕ) (vw : α) : BidiState α :=
  let s := side st dir
  let st2 := setSide { st with counter := st.counter + 1 } dir
    { s with
      seen := (w, vw) :: s.seen,
      fringe := (vw, st.counter, w) :: s.fringe,
      paths := (w, (s.paths.lookup v).getD [] ++ [w]) :: s.paths }
  match st2.fwd.seen.lookup w, st2.bwd.seen.lookup w with
  | some d0, some d1 =>
    if st2.finalpath = [] ∨ d0 + d1 < st2.finaldist then
      { st2 with
        finaldist := d0 + d1,
        finalpath := (st2.fwd.paths.lookup w).getD [] ++
          ((st2.bwd.paths.lookup w).getD []).reverse.drop 1 }
    else st2
  | _, _ => st2

/-- Relax one neighbor `(w, cost)` of the just-finalized `v` at distance `d`
on side `dir`: an improvement on a node already finalized on this side raises
the `"Contradictory paths found: negative weights?"` ValueError; otherwise an
improvement on the tentative distance pushes. -/
def bdRelax {α : Type} [LinearOrder α] [Add α] (dir : Bool) (v : ℕ) (d : α)
    (st : BidiState α) (e : ℕ × α) : Except RouterErr (BidiState α) :=
  match (side st dir).dist.lookup e.1 with
  | some dw => if d + e.2 < dw then .error .contradictoryPaths else .ok st
  | none =>
    match (side st dir).seen.lookup e.1 with
    | some sw =>
      if d + e.2 < sw then .ok (bdPush st dir v e.1 (d + e.2)) else .ok st
    | none => .ok (bdPush st dir v e.1 (d + e.2))

/-- Relax every neighbor of `v` in order. -/
def bdRelaxAll {α : Type} [LinearOrder α] [Add α] (dir : Bool) (v : ℕ) (d : α) :
    List (ℕ × α) → BidiState α → Except RouterErr (BidiState α)
  | [], st => .ok st
  | e :: es, st =>
    match bdRelax dir v d st e with
    | .error err => .error err
    | .ok st2 => bdRelaxAll dir v d es st2

/-- The `while fringe[0] and fringe[1]:` loop of `bidirectional_dijkstra`,
with an explicit iteration bound: flip the direction, pop, skip stale
entries (the popped node already finalized on this side), finalize the node,
return the best meeting path as soon as the node is also finalized on the
other side, otherwise relax its successors (forward) or predecessors
(backward); an emptied fringe means NetworkXNoPath. -/
def bdLoop {α : Type} [LinearOrder α] [Add α] (adjF adjB : ℕ → List (ℕ × α)) :
    ℕ → Bool → BidiState α → Except RouterErr (α × List ℕ)
  | 0, _, _ => .error .fuelExhausted
  | Nat.succ fuel, dir, st =>
    if st.fwd.fringe.isEmpty || st.bwd.fringe.isEmpty then .error .noPath
    else
      let dir2 := !dir
      match popMin (side st dir2).fringe with
      | none => .error .noPath
      | some ((d, _, v), rest) =>
        let st2 := setSide st dir2 { side st dir2 with fringe := rest }
        if ((side st2 dir2).dist.lookup v).isSome then
          bdLoop adjF adjB fuel dir2 st2
        else
          let st3 := setSide st2 dir2
            { side st2 dir2 with dist := (v, d) :: (side st2 dir2).dist }
          if ((side st3 dir).dist.lookup v).isSome then
            .ok (st3.finaldist, st3.finalpath)
          else
            match bdRelaxAll dir2 v d (if dir2 then adjB v else adjF v) st3 with
            | .error err => .error err
            | .ok st4 => bdLoop adjF adjB fuel dir2 st4

/-- `nx.shortest_path(G, source, target, weight=...)` in networkx ≥ 2.5 (what
the repository's osmnx stack installs) runs
`nx.bidirectional_dijkstra(G, source, target, weight)`: NodeNotFound when the
source or target is missing, `(0, [source])` when they coincide, then the
alternating two-sided heap loop (the Python `dir` starts at 1 and is flipped
at the top of each iteration, so the first expansion is forward). -/
def bidirectionalDijkstra {α : Type} [LinearOrder α] [Add α] [Zero α]
    (nodes : List ℕ) (adjF adjB : ℕ → List (ℕ × α)) (source target : ℕ)
    (fuel : ℕ) : Except RouterErr (α × List ℕ) :=
  if source ∈ nodes ∧ target ∈ nodes then
    if source = target then .ok (0, [source])
    else
      bdLoop adjF adjB fuel true
        { fwd := { dist := [], seen := [(source, 0)],
                   fringe := [(0, 0, source)], paths := [(source, [source])] },
          bwd := { dist := [], seen := [(target, 0)],
                   fringe := [(0, 1, target)], paths := [(target, [target])] },
          counter := 2, finaldist := 0, finalpath := [] }
  else .error .nodeNotFound

/-- Successor adjacency of the stored edge list with a chosen weight reading,
as the forward half of the library search consumes it. -/
def edgeAdjacency (edges : List (ℕ × ℕ × EdgeData)) (w : EdgeData → ℝ)
    (v : ℕ) : List (ℕ × ℝ) :=
  (edges.filter fun e => e.1 == v).map fun e => (e.2.1, w e.2.2)

/-- Predecessor adjacency with a chosen weight reading, as the backward half
of the library search consumes it. -/
def edgeAdjacencyPred (edges : List (ℕ × ℕ × EdgeData)) (w : EdgeData → ℝ)
    (v : ℕ) : List (ℕ × ℝ) :=
  (edges.filter fun e => e.2.1 == v).map fun e => (e.1, w e.2.2)

/-- The post-hoc aggregate sums of lines 438–442: over consecutive path node
pairs, read the named attribute of the `(u, v)` edge with default 0. -/
noncomputable def pathSum (edges : List (ℕ × ℕ × EdgeData))
    (w : EdgeData → ℝ) : List ℕ → ℝ
  | u :: v :: rest =>
    ((edges.find? fun e => e.1 == u && e.2.1 == v).map fun e => w e.2.2).getD 0
      + pathSum edges w (v :: rest)
  | _ => 0

/-- `find_shortest_and_eco_route(G, start_node, end_node, vehicle_params)`:
assign both edge weights, run the two library searches, and on success return
the two paths together with the logged aggregates (shortest distance, eco
distance, shortest fuel, eco fuel).  A NetworkXNoPath from either search is
caught and yields `(None, None)` (`.ok none`); any other library error
propagates. -/
noncomputable def find_shortest_and_eco_route (G : Graph) (start_node end_node : ℕ)
    (p : VehicleParams) (hour : ℕ) :
    Except RouterErr (Option (List ℕ × List ℕ × ℝ × ℝ × ℝ × ℝ)) :=
  match bidirectionalDijkstra ((setEdgeWeights G p hour).nodes.map Prod.fst)
      (edgeAdjacency (setEdgeWeights G p hour).edges fun d => d.shortest_weight.getD 1)
      (edgeAdjacencyPred (setEdgeWeights G p hour).edges fun d => d.shortest_weight.getD 1)
      start_node end_node
      (((setEdgeWeights G p hour).edges.length + 2) *
        ((setEdgeWeights G p hour).nodes.length + 2)) with
  | .error .noPath => .ok none
  | .error e => .error e
  | .ok (_, shortest_path) =>
    match bidirectionalDijkstra ((setEdgeWeights G p hour).nodes.map Prod.fst)
        (edgeAdjacency (setEdgeWeights G p hour).edges fun d => d.eco_weight.getD 1)
        (edgeAdjacencyPred (setEdgeWeights G p hour).edges fun d => d.eco_weight.getD 1)
        start_node end_node
        (((setEdgeWeights G p hour).edges.length + 2) *
          ((setEdgeWeights G p hour).nodes.length + 2)) with
    | .error .noPath => .ok none
    | .error e => .error e
    | .ok (_, eco_path) =>
      .ok (some (shortest_path, eco_path,
        pathSum (setEdgeWeights G p hour).edges (fun d => d.length.getD 0)
          shortest_path,
        pathSum (setEdgeWeights G p hour).edges (fun d => d.length.getD 0)
          eco_path,
        pathSum (setEdgeWeights G p hour).edges (fun d => d.eco_weight.getD 0)
          shortest_path,
        pathSum (setEdgeWeights G p hour).edges (fun d => d.eco_weight.getD 0)
          eco_path))

/-- C10: the weight-assignment pass of `find_shortest_and_eco_route` leaves
the node set (with its attributes) unchanged and rewrites each edge dict to
carry `shortest_weight = length (default 0)` and `eco_weight = the computed
fuel consumption`, while every other edge attribute — length, speed limit,
slope, road class, and any extra keys — is unchanged. -/
theorem c10_weight_assignment_frame (G : Graph) (p : VehicleParams) (hour : ℕ) :
    (setEdgeWeights G p hour).nodes = G.nodes ∧
    List.Forall₂ (fun old new : ℕ × ℕ × EdgeData =>
        new.1 = old.1 ∧ new.2.1 = old.2.1 ∧
        new.2.2.shortest_weight = some (old.2.2.length.getD 0) ∧
        new.2.2.eco_weight = some (calculate_fuel_consumption old.2.2 p hour) ∧
        new.2.2.length = old.2.2.length ∧
        new.2.2.speed_kph = old.2.2.speed_kph ∧
        new.2.2.slope = old.2.2.slope ∧
        new.2.2.highway = old.2.2.highway ∧
        new.2.2.extra = old.2.2.extra)
      G.edges (setEdgeWeights G p hour).edges := by
  refine ⟨rfl, ?_⟩
  show List.Forall₂ _ G.edges (G.edges.map _)
  induction G.edges with
  | nil => exact List.Forall₂.nil
  | cons e es ih =>
    exact List.Forall₂.cons ⟨rfl, rfl, rfl, rfl, rfl, rfl, rfl, rfl, rfl⟩ ih

/-- C6: for every graph, profile, hour and node `n` present in the graph,
routing with origin = destination = `n` returns the single-node path `[n]`
for both searches with all four aggregate totals 0 — a success, not an error
outcome. -/
theorem c6_same_node_trivial_route (G : Graph) (p : VehicleParams) (hour : ℕ)
    (n : ℕ) (hn : n ∈ G.nodes.map Prod.fst) :
    find_shortest_and_eco_route G n n p hour =
      .ok (some ([n], [n], 0, 0, 0, 0)) := by
  have hids : n ∈ (setEdgeWeights G p hour).nodes.map Prod.fst := by
    simpa [setEdgeWeights] using hn
  unfold find_shortest_and_eco_route bidirectionalDijkstra
  simp [hids, pathSum]

/-- Witness for C6 on a two-node, one-edge graph at origin = destination. -/
theorem c6_same_node_trivial_route_witness :
    1 ∈ (Graph.mk [(1, 0), (2, 0)] [(1, 2, eFlat)]).nodes.map Prod.fst ∧
      find_shortest_and_eco_route (Graph.mk [(1, 0), (2, 0)] [(1, 2, eFlat)])
          1 1 pDefault 12 = .ok (some ([1], [1], 0, 0, 0, 0)) :=
  ⟨by decide,
   c6_same_node_trivial_route (Graph.mk [(1, 0), (2, 0)] [(1, 2, eFlat)])
     pDefault 12 1 (by decide)⟩

/-! ## C1: the fuel-weighted search on a negative edge weight

A five-node graph, origin 0 and destination 5, with fuel weights `0→1 : 1`,
`1→5 : 1`, `0→2 : 10`, `2→3 : −100`, `3→5 : 10` (edges listed in insertion
order).  Every edge goes from a smaller to a larger node id, so the graph has
no cycle at all — in particular no negative cycle.  The fuel-optimal path is
`[0, 2, 3, 5]` with total weight −80.  The bidirectional search, however,
meets on node 1: the forward side relaxes 1 and 2, the backward side relaxes
1 and 3 (recording the meeting path `[0, 1, 5]` of weight 2), the forward
side finalizes node 1, and the next backward pop finalizes node 1 too — the
stopping rule fires and returns `(2, [0, 1, 5])` before either side ever
relaxes the negative edge `2→3`.  It silently returns a non-minimal path. -/

def edgesNeg : List (ℕ × ℕ × ℤ) :=
  [(0, 1, 1), (1, 5, 1), (0, 2, 10), (2, 3, -100), (3, 5, 10)]

/-- Successor adjacency of the counterexample graph. -/
def adjNegF (v : ℕ) : List (ℕ × ℤ) :=
  (edgesNeg.filter fun e => e.1 == v).map fun e => (e.2.1, e.2.2)

/-- Predecessor adjacency of the counterexample graph. -/
def adjNegB (v : ℕ) : List (ℕ × ℤ) :=
  (edgesNeg.filter fun e => e.2.1 == v).map fun e => (e.1, e.2.2)

/-- Total weight of a path in the counterexample graph (`none` if some hop is
not an edge). -/
def pathWeightNeg : List ℕ → Option ℤ
  | u :: v :: rest =>
    match (adjNegF u).lookup v, pathWeightNeg (v :: rest) with
    | some w, some rw => some (w + rw)
    | _, _ => none
  | _ => some 0

/-- C1 fails on the code: on this negative-edge, cycle-free graph the
`bidirectional_dijkstra` primitive behind the fuel-weighted
`nx.shortest_path` call returns the path `[0, 1, 5]` of total weight 2,
although the origin-to-destination path `[0, 2, 3, 5]` has total weight −80 —
the returned path is not minimal. -/
theorem c1_bidirectional_dijkstra_misses_negative_optimum :
    bidirectionalDijkstra [0, 1, 2, 3, 5] adjNegF adjNegB 0 5 20 =
      .ok (2, [0, 1, 5]) ∧
    pathWeightNeg [0, 2, 3, 5] = some (-80) ∧
    pathWeightNeg [0, 1, 5] = some 2 ∧
    ((-80 : ℤ) < 2) ∧
    (∀ e ∈ edgesNeg, e.1 < e.2.1) := by
  refine ⟨rfl, by decide, by decide, by decide, by decide⟩

end EcoMap
